import Mathlib

/-!
Shallow embedding of the latracal-backend book-review API core
(src/controllers/bookController.js, the auth/user/review controllers and
the validation middleware), together with proofs about the claims of the
specification.  The relational store is modelled as explicit lists of
rows; each HTTP handler becomes a pure function from a store and request
parameters to a result and (for mutations) a new store.  JavaScript
numbers are modelled as rationals, built from `mkRat` so that every
definition evaluates inside the kernel.
-/

namespace Latracal

/-! ## JavaScript / SQL primitive behaviour -/

/-- ASCII lower-casing of one character, as MySQL case-insensitive
collation compares strings.  Non-ASCII characters are left unchanged. -/
def lowChar (c : Char) : Char :=
  if 'A' ≤ c && c ≤ 'Z' then Char.ofNat (c.toNat + 32) else c

/-- ASCII upper-casing of one character, modelling
`String.prototype.toUpperCase` on the ASCII inputs the code compares. -/
def upChar (c : Char) : Char :=
  if 'a' ≤ c && c ≤ 'z' then Char.ofNat (c.toNat - 32) else c

/-- `sortOrder.toUpperCase()` from bookController.js line 15. -/
def upStr (s : String) : String := ⟨s.data.map upChar⟩

/-- Character-list pattern test: the first list occurs at the head of
the second. -/
def chPre : List Char → List Char → Bool
  | [], _ => true
  | _ :: _, [] => false
  | a :: as, b :: bs => a == b && chPre as bs

/-- Character-list substring test: the first list occurs contiguously
inside the second. -/
def chSub (nee : List Char) : List Char → Bool
  | [] => chPre nee []
  | c :: t => chPre nee (c :: t) || chSub nee t

/-- SQL `field LIKE CONCAT(percent, pattern, percent)` under the default
case-insensitive collation: substring match after lower-casing. -/
def likeContains (hay nee : String) : Bool :=
  chSub (nee.data.map lowChar) (hay.data.map lowChar)

/-- SQL `LIKE` applied to a nullable column: `NULL LIKE x` is `NULL`,
which a `WHERE` clause treats as false. -/
def optLike (hay : Option String) (nee : String) : Bool :=
  match hay with
  | none => false
  | some h => likeContains h nee

/-- `parseInt(x) || d`: an absent or non-numeric query parameter (model:
`none`) and the value `0` both fall back to the default `d`; every other
parsed integer, negative values included, is used as-is
(bookController.js lines 5-6). -/
def jsIntOr (q : Option Int) (d : Int) : Int :=
  match q with
  | none => d
  | some v => if v = 0 then d else v

/-- `Math.ceil(total / limit)` for a positive integer limit. -/
def jsCeilDiv (total : Nat) (limit : Nat) : Nat :=
  (total + limit - 1) / limit

/-! ## Rational arithmetic that the kernel can evaluate

`Rat.add`/`Rat.mul`/`Rat.div` do not reduce inside the kernel, so the
aggregate computations are written with `mkRat` over `num`/`den`; each
definition denotes exactly the usual rational operation. -/

/-- Rational addition via `mkRat`. -/
def qAdd (a b : ℚ) : ℚ :=
  mkRat (a.num * (b.den : Int) + b.num * (a.den : Int)) (a.den * b.den)

/-- Sum of a list of rationals. -/
def qSum (l : List ℚ) : ℚ := l.foldr qAdd 0

/-- Division of a rational by a natural number (`mkRat _ 0 = 0`, but the
zero case is always guarded where this is used). -/
def qDivNat (a : ℚ) (n : Nat) : ℚ := mkRat a.num (a.den * n)

/-- `(c / t) * 100`, the percentage-of-total computation. -/
def pctOf (c t : Nat) : ℚ := mkRat ((c : Int) * 100) t

/-- SQL `COALESCE(AVG(column), 0)`: 0 on an empty group, otherwise the
mean. -/
def avgOf (l : List ℚ) : ℚ :=
  if l.length = 0 then 0 else qDivNat (qSum l) l.length

/-- SQL `MIN(column) || 0` shaping: 0 on an empty group. -/
def minOf (l : List ℚ) : ℚ :=
  match l with
  | [] => 0
  | h :: t => t.foldl (fun a b => if b < a then b else a) h

/-- SQL `MAX(column) || 0` shaping: 0 on an empty group. -/
def maxOf (l : List ℚ) : ℚ :=
  match l with
  | [] => 0
  | h :: t => t.foldl (fun a b => if a < b then b else a) h

/-! ## Data model (tables created in src/config/database.js) -/

/-- A row of the `books` table.  Dates and timestamps are modelled as
natural numbers (epoch seconds); nullable columns as `Option`. -/
structure Book where
  id : Nat
  title : String
  author : String
  description : Option String
  isbn : Option String
  published_date : Option Nat
  genre : Option String
  cover_image : Option String
  created_at : Nat
  deriving DecidableEq

/-- A row of the `reviews` table.  The rating is a rational because the
controller passes the JSON number through unchecked for integrality. -/
structure Review where
  id : Nat
  user_id : Nat
  book_id : Nat
  rating : ℚ
  comment : Option String
  created_at : Nat
  deriving DecidableEq

/-- A row of the `users` table (the hashed password is irrelevant to
every claim and omitted from the projected shape). -/
structure User where
  id : Nat
  username : String
  email : String
  role : String
  created_at : Nat
  deriving DecidableEq

/-- A row of the `wishlist` table, referenced by the delete cascades. -/
structure WishItem where
  user_id : Nat
  book_id : Nat
  deriving DecidableEq

/-- The committed state of the relational store, plus the two
auto-increment counters. -/
structure Store where
  books : List Book
  reviews : List Review
  users : List User
  wishlist : List WishItem
  nextReviewId : Nat
  nextUserId : Nat
  deriving DecidableEq

/-! ## Per-book aggregation (the repeated LEFT JOIN + GROUP BY shape) -/

/-- The review rows referencing a book. -/
def bookReviews (s : Store) (bid : Nat) : List Review :=
  s.reviews.filter (fun r => r.book_id == bid)

/-- `COALESCE(AVG(r.rating), 0)` for one book. -/
def bookAverageRating (s : Store) (bid : Nat) : ℚ :=
  avgOf ((bookReviews s bid).map (fun r => r.rating))

/-- `COUNT(r.id)` for one book. -/
def bookReviewCount (s : Store) (bid : Nat) : Nat :=
  (bookReviews s bid).length

/-- A book row as returned by the listing queries: the row itself plus
the two derived aggregate columns. -/
structure EnrichedBook where
  book : Book
  average_rating : ℚ
  review_count : Nat
  deriving DecidableEq

/-- One output row of the `SELECT b.*, COALESCE(AVG(..),0), COUNT(..)`
join, after the controller re-parses the aggregates
(`parseFloat(x) || 0` / `parseInt(x) || 0` is the identity here). -/
def enrichBook (s : Store) (b : Book) : EnrichedBook :=
  { book := b
    average_rating := bookAverageRating s b.id
    review_count := bookReviewCount s b.id }

/-! ## A deterministic sort implementing the ORDER BY clauses -/

/-- Insert into a sorted list, first position whose head compares
greater. -/
def insertOrd (le : α → α → Bool) (x : α) : List α → List α
  | [] => [x]
  | y :: ys =>
    match le x y with
    | true => x :: y :: ys
    | false => y :: insertOrd le x ys

/-- Insertion sort by a boolean comparison. -/
def sortOrd (le : α → α → Bool) (l : List α) : List α :=
  l.foldr (insertOrd le) []

theorem mem_insertOrd (le : α → α → Bool) (x : α) (l : List α) (z : α) :
    z ∈ insertOrd le x l ↔ z = x ∨ z ∈ l := by
  induction l with
  | nil => simp [insertOrd]
  | cons y ys ih =>
    cases hb : le x y with
    | true =>
      simp only [insertOrd, hb, List.mem_cons]
    | false =>
      simp only [insertOrd, hb, List.mem_cons, ih]
      tauto

theorem mem_sortOrd (le : α → α → Bool) (l : List α) (z : α) :
    z ∈ sortOrd le l ↔ z ∈ l := by
  induction l with
  | nil => simp [sortOrd]
  | cons y ys ih =>
    simp only [sortOrd, List.foldr] at *
    rw [mem_insertOrd, ih, List.mem_cons]

/-! ## getBooks (bookController.js lines 3-81) -/

/-- The query parameters of the listing endpoint.  `none` models an
absent or non-numeric numeric parameter; the empty string models an
absent string parameter (both are falsy in the source). -/
structure BooksQuery where
  page : Option Int
  limit : Option Int
  search : String
  genre : String
  sortBy : String
  sortOrder : String
  deriving DecidableEq

/-- Line 5: `const page = parseInt(req.query.page) || 1`. -/
def getBooksEffPage (q : BooksQuery) : Int := jsIntOr q.page 1

/-- Line 6: `const limit = parseInt(req.query.limit) || 10`. -/
def getBooksEffLimit (q : BooksQuery) : Int := jsIntOr q.limit 10

/-- Line 11: `const offset = (page - 1) * limit`. -/
def getBooksOffset (q : BooksQuery) : Int :=
  (getBooksEffPage q - 1) * getBooksEffLimit q

/-- Line 13: the sort-key allow-list. -/
def validSortFields : List String :=
  ["created_at", "title", "author", "published_date", "average_rating", "review_count"]

/-- Line 9 and line 14: `req.query.sortBy || 'created_at'`, then the
allow-list check with fallback to `created_at`. -/
def getBooksValidSortBy (q : BooksQuery) : String :=
  let sortBy := if q.sortBy == "" then "created_at" else q.sortBy
  if validSortFields.contains sortBy then sortBy else "created_at"

/-- Line 10 and line 15: `req.query.sortOrder || 'DESC'`, then upper-case
and the ASC/DESC check with fallback to `DESC`. -/
def getBooksValidSortOrder (q : BooksQuery) : String :=
  let sortOrder := if q.sortOrder == "" then "DESC" else q.sortOrder
  if ["ASC", "DESC"].contains (upStr sortOrder) then upStr sortOrder else "DESC"

/-- Lines 27-35: the WHERE conditions — free-text search OR-ed over
title/author/isbn/description, AND-ed with the genre equality, each
present only when the parameter is truthy. -/
def getBooksWhere (search genre : String) (b : Book) : Bool :=
  (search == "" ||
    (likeContains b.title search || likeContains b.author search ||
     optLike b.isbn search || optLike b.description search)) &&
  (genre == "" || b.genre == some genre)

/-- The ORDER BY comparison for one allow-listed key in ascending
direction (line 41; `average_rating` sorts by the aggregate, others by
the book column; a NULL `published_date` sorts first, as in MySQL). -/
def bookKeyLe (key : String) (x y : EnrichedBook) : Bool :=
  if key == "title" then decide (x.book.title ≤ y.book.title)
  else if key == "author" then decide (x.book.author ≤ y.book.author)
  else if key == "published_date" then
    decide ((x.book.published_date.map Nat.succ).getD 0 ≤ (y.book.published_date.map Nat.succ).getD 0)
  else if key == "average_rating" then decide (x.average_rating ≤ y.average_rating)
  else if key == "review_count" then decide (x.review_count ≤ y.review_count)
  else decide (x.book.created_at ≤ y.book.created_at)

/-- The ORDER BY comparison after applying the sort direction. -/
def bookOrderLe (key order : String) (x y : EnrichedBook) : Bool :=
  if order == "ASC" then bookKeyLe key x y else bookKeyLe key y x

/-- The page of rows returned by `getBooks`: filter, enrich with the
aggregates, sort, then `LIMIT ? OFFSET ?` (lines 17-46).  A negative
offset or limit is rejected by MySQL; the clamping `toNat` only matters
on requests the engine would refuse. -/
def getBooksRows (s : Store) (q : BooksQuery) : List EnrichedBook :=
  let filtered := s.books.filter (getBooksWhere q.search q.genre)
  let sorted := sortOrd (bookOrderLe (getBooksValidSortBy q) (getBooksValidSortOrder q))
    (filtered.map (enrichBook s))
  (sorted.drop (getBooksOffset q).toNat).take (getBooksEffLimit q).toNat

/-- Lines 48-57: the separately built `SELECT COUNT(DISTINCT b.id)`
query over the same WHERE conditions (book ids are unique, so the
distinct count is the filtered length). -/
def getBooksTotal (s : Store) (q : BooksQuery) : Nat :=
  (s.books.filter (getBooksWhere q.search q.genre)).length

/-- Line 72: `totalPages: Math.ceil(total / limit)`. -/
def getBooksTotalPages (s : Store) (q : BooksQuery) : Nat :=
  jsCeilDiv (getBooksTotal s q) (getBooksEffLimit q).toNat

/-! ## getBookById (lines 83-119) -/

/-- The single-book endpoint: `none` models the 400 response for a
non-numeric/absent id (0 is falsy) and the 404 response when no row
matches; otherwise the enriched row. -/
def getBookById (s : Store) (bid : Nat) : Option EnrichedBook :=
  if bid = 0 then none
  else (s.books.find? (fun b => b.id == bid)).map (enrichBook s)

/-! ## getFeaturedBooks (lines 121-151) -/

/-- The featured ORDER BY: average rating descending, then review count
descending. -/
def featuredLe (x y : EnrichedBook) : Bool :=
  decide (y.average_rating < x.average_rating) ||
    (x.average_rating == y.average_rating && decide (y.review_count ≤ x.review_count))

/-- Lines 126-137: all books grouped with their aggregates, kept when
`average_rating >= 4.0 OR review_count >= 5`, ordered by rating then
count, limited. -/
def getFeaturedBooks (s : Store) (limit : Option Int) : List EnrichedBook :=
  let rows := (s.books.map (enrichBook s)).filter
    (fun e => decide ((4 : ℚ) ≤ e.average_rating) || decide (5 ≤ e.review_count))
  (sortOrd featuredLe rows).take (jsIntOr limit 6).toNat

/-! ## getRelatedBooks (lines 542-595) -/

/-- Lines 554-581: look up the book, return `[]` when it has no truthy
genre, otherwise the other books of the same genre ordered by rating
then count.  `none` models the 400/404 error responses. -/
def getRelatedBooks (s : Store) (bid : Nat) (limit : Option Int) :
    Option (List EnrichedBook) :=
  if bid = 0 then none
  else
    match s.books.find? (fun b => b.id == bid) with
    | none => none
    | some b =>
      match b.genre with
      | none => some []
      | some g =>
        if g == "" then some []
        else
          let rows := (s.books.filter (fun x => x.genre == some g && x.id != bid)).map
            (enrichBook s)
          some ((sortOrd featuredLe rows).take (jsIntOr limit 6).toNat)

/-! ## searchBooks (lines 597-720) -/

/-- The query parameters of the search endpoint; `minRating`/`maxRating`
are `parseFloat` results, `none` when absent. -/
structure SearchQuery where
  q : String
  genre : String
  author : String
  minRating : Option ℚ
  maxRating : Option ℚ
  sortBy : String
  page : Option Int
  limit : Option Int
  deriving DecidableEq

/-- Lines 619-632: the WHERE conditions of the search query. -/
def searchWhere (sq : SearchQuery) (b : Book) : Bool :=
  (sq.q == "" ||
    (likeContains b.title sq.q || likeContains b.author sq.q ||
     optLike b.description sq.q || optLike b.isbn sq.q)) &&
  (sq.genre == "" || b.genre == some sq.genre) &&
  (sq.author == "" || likeContains b.author sq.author)

/-- Lines 641-656: the post-aggregation HAVING filter on the average
rating. -/
def searchHaving (sq : SearchQuery) (e : EnrichedBook) : Bool :=
  (match sq.minRating with
   | none => true
   | some m => decide (m ≤ e.average_rating)) &&
  (match sq.maxRating with
   | none => true
   | some m => decide (e.average_rating ≤ m))

/-- Lines 659-677: the ORDER BY selected by `sortBy`, defaulting to
relevance (review count descending, then average rating descending). -/
def searchLe (sortBy : String) (x y : EnrichedBook) : Bool :=
  if sortBy == "title" then decide (x.book.title ≤ y.book.title)
  else if sortBy == "author" then decide (x.book.author ≤ y.book.author)
  else if sortBy == "rating" then decide (y.average_rating ≤ x.average_rating)
  else if sortBy == "newest" then decide (y.book.created_at ≤ x.book.created_at)
  else if sortBy == "oldest" then decide (x.book.created_at ≤ y.book.created_at)
  else
    decide (y.review_count < x.review_count) ||
      (x.review_count == y.review_count && decide (y.average_rating ≤ x.average_rating))

/-- Line 604: `if (!q && !genre && !author)` — at least one search
parameter is required. -/
def searchHasParam (sq : SearchQuery) : Bool :=
  !(sq.q == "" && sq.genre == "" && sq.author == "")

/-- The page of rows returned by `searchBooks`: WHERE filter, grouping
with aggregates, HAVING rating filter, sort, then LIMIT/OFFSET. -/
def searchRows (s : Store) (sq : SearchQuery) : List EnrichedBook :=
  let page := jsIntOr sq.page 1
  let limit := jsIntOr sq.limit 10
  let offset := (page - 1) * limit
  let kept := ((s.books.filter (searchWhere sq)).map (enrichBook s)).filter (searchHaving sq)
  ((sortOrd (searchLe sq.sortBy) kept).drop offset.toNat).take limit.toNat

/-- Lines 686-695: the count query `SELECT COUNT(DISTINCT b.id)` is
rebuilt from the WHERE conditions only — the HAVING rating filter is
never added to it. -/
def searchTotal (s : Store) (sq : SearchQuery) : Nat :=
  (s.books.filter (searchWhere sq)).length

/-- Line 710: `totalPages: Math.ceil(total / limit)`. -/
def searchTotalPages (s : Store) (sq : SearchQuery) : Nat :=
  jsCeilDiv (searchTotal s sq) (jsIntOr sq.limit 10).toNat

/-- The number of books satisfying all active filters of a search
request, the rating-range filters included — the notion of `total` used
by the specification for the pagination invariant. -/
def searchAllFiltersCount (s : Store) (sq : SearchQuery) : Nat :=
  (((s.books.filter (searchWhere sq)).map (enrichBook s)).filter (searchHaving sq)).length

/-! ## createReview / updateReview (reviewController, lines 874-998) -/

/-- The outcome of a review mutation, tagged by HTTP class: 400-class
validation/conflict errors with the source message, 404, 403, the
created/updated row joined with the reviewer username, or a 500. -/
inductive ReviewOutcome where
  | badRequest (msg : String)
  | notFound
  | forbidden
  | created (r : Review) (username : String)
  | updated (r : Review) (username : String)
  | serverError
  deriving DecidableEq

/-- `createReview` (lines 874-937).  The caller identity is
`req.user.userId`; `book_id = 0` and `rating = 0` model the falsy
values of the `!book_id || !rating` guard.  If the insert succeeds while
the caller has no user row, the `user_id` foreign key rejects the insert
and the handler falls to the 500 branch with no row written. -/
def createReview (s : Store) (callerId book_id : Nat) (rating : ℚ)
    (comment : Option String) (now : Nat) : Store × ReviewOutcome :=
  if book_id = 0 || rating == 0 then
    (s, .badRequest "Book ID and rating are required")
  else if rating < 1 || 5 < rating then
    (s, .badRequest "Rating must be between 1 and 5")
  else if (s.books.find? (fun b => b.id == book_id)).isNone then
    (s, .notFound)
  else if s.reviews.any (fun r => r.user_id == callerId && r.book_id == book_id) then
    (s, .badRequest "You have already reviewed this book")
  else
    match s.users.find? (fun u => u.id == callerId) with
    | none => (s, .serverError)
    | some u =>
      let r : Review :=
        { id := s.nextReviewId, user_id := callerId, book_id := book_id
          rating := rating, comment := comment, created_at := now }
      ({ s with reviews := s.reviews ++ [r], nextReviewId := s.nextReviewId + 1 },
        .created r u.username)

/-- `updateReview` (lines 939-998).  Only the owning caller may update;
the rating guard is the same numeric range check as in create. -/
def updateReview (s : Store) (callerId reviewId : Nat) (rating : ℚ)
    (comment : Option String) : Store × ReviewOutcome :=
  if rating == 0 then
    (s, .badRequest "Rating is required")
  else if rating < 1 || 5 < rating then
    (s, .badRequest "Rating must be between 1 and 5")
  else
    match s.reviews.find? (fun r => r.id == reviewId) with
    | none => (s, .notFound)
    | some r0 =>
      if r0.user_id != callerId then (s, .forbidden)
      else
        let r : Review := { r0 with rating := rating, comment := comment }
        let s2 : Store :=
          { s with reviews := s.reviews.map (fun x => if x.id == reviewId then r else x) }
        match s.users.find? (fun u => u.id == r0.user_id) with
        | none => (s2, .serverError)
        | some u => (s2, .updated r u.username)

/-! ## register (authController, part_002 lines 21-55) -/

/-- The outcome of a registration request. -/
inductive RegisterOutcome where
  | badRequest (msg : String)
  | created (u : User)
  deriving DecidableEq

/-- Line 29: `const userRole = role === 'admin' ? 'admin' : 'user'`,
where the body field defaults to `'user'` when absent. -/
def registerRole (role : Option String) : String :=
  if role == some "admin" then "admin" else "user"

/-- `register` (lines 21-55): requires the three fields, inserts a user
with the computed role; a duplicate username or email violates the
UNIQUE keys and is surfaced as a 400 `ER_DUP_ENTRY` response with no
row written. -/
def register (s : Store) (username email password : String)
    (role : Option String) (now : Nat) : Store × RegisterOutcome :=
  if username == "" || email == "" || password == "" then
    (s, .badRequest "All fields are required")
  else if s.users.any (fun u => u.username == username || u.email == email) then
    (s, .badRequest "Email already exists")
  else
    let u : User :=
      { id := s.nextUserId, username := username, email := email
        role := registerRole role, created_at := now }
    ({ s with users := s.users ++ [u], nextUserId := s.nextUserId + 1 }, .created u)

/-! ## Transactions and the delete cascades -/

/-- The outcome of a delete / role-update request. -/
inductive MutationOutcome where
  | badRequest (msg : String)
  | notFound
  | ok
  | serverError
  deriving DecidableEq

/-- A `START TRANSACTION` / steps / `COMMIT` sequence with `ROLLBACK` on
the first failing step: the statements mutate an uncommitted working
snapshot; a failure at step `k` (the oracle `failAt`) rolls the store
back to the committed state, otherwise the commit publishes every step.
This models the MySQL semantics of the literal transaction statements,
with all of them executing on one connection. -/
def runTxn (committed : Store) (steps : List (Store → Store)) (failAt : Option Nat) :
    Store × Bool :=
  match failAt with
  | some k =>
    if k < steps.length then (committed, false)
    else (steps.foldl (fun st f => f st) committed, true)
  | none => (steps.foldl (fun st f => f st) committed, true)

/-- `DELETE FROM reviews WHERE book_id = ?`. -/
def delReviewsByBook (bid : Nat) (s : Store) : Store :=
  { s with reviews := s.reviews.filter (fun r => r.book_id != bid) }

/-- `DELETE FROM wishlist WHERE book_id = ?`. -/
def delWishlistByBook (bid : Nat) (s : Store) : Store :=
  { s with wishlist := s.wishlist.filter (fun w => w.book_id != bid) }

/-- `DELETE FROM books WHERE id = ?`. -/
def delBookRow (bid : Nat) (s : Store) : Store :=
  { s with books := s.books.filter (fun b => b.id != bid) }

/-- The fully-cascaded result of a book deletion. -/
def bookCascade (s : Store) (bid : Nat) : Store :=
  delBookRow bid (delWishlistByBook bid (delReviewsByBook bid s))

/-- `deleteBook` (bookController.js lines 443-485): id guard, existence
check, then the three deletes inside one transaction; any error rolls
back and answers 500. -/
def deleteBook (s : Store) (bid : Nat) (failAt : Option Nat) :
    Store × MutationOutcome :=
  if bid = 0 then (s, .badRequest "Invalid book ID")
  else if (s.books.find? (fun b => b.id == bid)).isNone then (s, .notFound)
  else
    let (s2, committed) :=
      runTxn s [delReviewsByBook bid, delWishlistByBook bid, delBookRow bid] failAt
    (s2, if committed then .ok else .serverError)

/-- `DELETE FROM reviews WHERE user_id = ?`. -/
def delReviewsByUser (uid : Nat) (s : Store) : Store :=
  { s with reviews := s.reviews.filter (fun r => r.user_id != uid) }

/-- `DELETE FROM wishlist WHERE user_id = ?`. -/
def delWishlistByUser (uid : Nat) (s : Store) : Store :=
  { s with wishlist := s.wishlist.filter (fun w => w.user_id != uid) }

/-- `DELETE FROM users WHERE id = ?`. -/
def delUserRow (uid : Nat) (s : Store) : Store :=
  { s with users := s.users.filter (fun u => u.id != uid) }

/-- The fully-cascaded result of a user deletion. -/
def userCascade (s : Store) (uid : Nat) : Store :=
  delUserRow uid (delWishlistByUser uid (delReviewsByUser uid s))

/-- `deleteUser` (userController, part_003 lines 244-295): id guard,
self-protection guard, existence check, then the three deletes inside
one transaction with rollback on failure. -/
def deleteUser (s : Store) (callerId uid : Nat) (failAt : Option Nat) :
    Store × MutationOutcome :=
  if uid = 0 then (s, .badRequest "Invalid user ID")
  else if uid = callerId then (s, .badRequest "Cannot delete your own account")
  else if (s.users.find? (fun u => u.id == uid)).isNone then (s, .notFound)
  else
    let (s2, committed) :=
      runTxn s [delReviewsByUser uid, delWishlistByUser uid, delUserRow uid] failAt
    (s2, if committed then .ok else .serverError)

/-- `updateUserRole` (part_003 lines 207-242): role allow-list, id
guard, self-protection guard, then the UPDATE whose `affectedRows = 0`
maps to 404. -/
def updateUserRole (s : Store) (callerId uid : Nat) (role : String) :
    Store × MutationOutcome :=
  if !(role == "user" || role == "admin") then (s, .badRequest "Invalid role")
  else if uid = 0 then (s, .badRequest "Invalid user ID")
  else if uid = callerId then (s, .badRequest "Cannot change your own role")
  else if s.users.any (fun u => u.id == uid) then
    ({ s with users := s.users.map (fun u => if u.id == uid then { u with role := role } else u) },
      .ok)
  else (s, .notFound)

/-! ## getReviewStats / getBookReviewSummary (lines 1043-1178) -/

/-- One row of a `GROUP BY rating` distribution: the rating value, its
count, and the computed percentage of total.  `none` models the
undefined value JavaScript produces when the divisor is 0 (the division
itself is `(count / total) * 100`). -/
def distPct (t : Nat) (c : Nat) : Option ℚ :=
  if t = 0 then none else some (pctOf c t)

/-- The distinct rating values of a review list, largest first
(`GROUP BY rating ORDER BY rating DESC`). -/
def ratingValues (rs : List Review) : List ℚ :=
  sortOrd (fun a b => decide (b ≤ a)) (rs.map (fun r => r.rating)).dedup

/-- The `GROUP BY rating` rows: value and count. -/
def ratingGroups (rs : List Review) : List (ℚ × Nat) :=
  (ratingValues rs).map (fun v => (v, (rs.filter (fun r => r.rating == v)).length))

/-- The global statistics response of `getReviewStats`
(lines 1043-1100). -/
structure ReviewStats where
  totalReviews : Nat
  averageRating : ℚ
  recentActivity : Nat
  ratingDistribution : List (ℚ × Nat × Option ℚ)
  topReviewers : List (Nat × String × Nat)
  deriving DecidableEq

/-- Reviewer activity ordering: review count descending. -/
def reviewerLe (x y : Nat × String × Nat) : Bool :=
  decide (y.2.2 ≤ x.2.2)

/-- `getReviewStats`: total count, global average, trailing-30-day
count, the per-star distribution with its unguarded percentage division
(line 1089), and the ten most active reviewers.  `now` is the call
time in epoch seconds. -/
def getReviewStats (s : Store) (now : Nat) : ReviewStats :=
  let total := s.reviews.length
  { totalReviews := total
    averageRating := avgOf (s.reviews.map (fun r => r.rating))
    recentActivity := (s.reviews.filter (fun r => now - 30 * 86400 ≤ r.created_at)).length
    ratingDistribution :=
      (ratingGroups s.reviews).map (fun g => (g.1, g.2, distPct total g.2))
    topReviewers :=
      (sortOrd reviewerLe
        ((s.users.filter (fun u => s.reviews.any (fun r => r.user_id == u.id))).map
          (fun u => (u.id, u.username,
            (s.reviews.filter (fun r => r.user_id == u.id)).length)))).take 10 }

/-- The per-book summary response of `getBookReviewSummary`
(lines 1102-1178). -/
structure BookSummary where
  bookId : Nat
  bookTitle : String
  totalReviews : Nat
  averageRating : ℚ
  minRating : ℚ
  maxRating : ℚ
  ratingDistribution : List (ℚ × Nat × Option ℚ)
  recentReviews : List (Review × String)
  deriving DecidableEq

/-- `getBookReviewSummary`: id guard and existence check (`none` models
the 400/404 responses), then the per-book aggregate statistics.  The
percentage here is guarded: `totalReviews > 0 ? ... : '0'`
(line 1167). -/
def getBookReviewSummary (s : Store) (bid : Nat) : Option BookSummary :=
  if bid = 0 then none
  else
    match s.books.find? (fun b => b.id == bid) with
    | none => none
    | some b =>
      let rs := bookReviews s bid
      let total := rs.length
      some
        { bookId := bid
          bookTitle := b.title
          totalReviews := total
          averageRating := avgOf (rs.map (fun r => r.rating))
          minRating := minOf (rs.map (fun r => r.rating))
          maxRating := maxOf (rs.map (fun r => r.rating))
          ratingDistribution :=
            (ratingGroups rs).map
              (fun g => (g.1, g.2, if 0 < total then distPct total g.2 else some 0))
          recentReviews :=
            ((sortOrd (fun x y => decide (y.created_at ≤ x.created_at)) rs).take 5).filterMap
              (fun r => (s.users.find? (fun u => u.id == r.user_id)).map
                (fun u => (r, u.username))) }

/-! ## Concrete fixtures used by witnesses and counterexamples -/

/-- A book with one five-star review in `exStore`. -/
def exBookAlpha : Book :=
  { id := 1, title := "alpha", author := "Ann", description := none, isbn := none
    published_date := none, genre := some "Fiction", cover_image := none, created_at := 100 }

/-- A book with no reviews in `exStore`. -/
def exBookBeta : Book :=
  { id := 2, title := "another", author := "Bob", description := none, isbn := none
    published_date := none, genre := some "Fiction", cover_image := none, created_at := 200 }

/-- The only user of `exStore`. -/
def exUserAlice : User :=
  { id := 1, username := "alice", email := "alice@example.com", role := "admin", created_at := 1 }

/-- The five-star review of book 1 by user 1. -/
def exReviewFive : Review :=
  { id := 1, user_id := 1, book_id := 1, rating := 5, comment := none, created_at := 10 }

/-- A small store: two books, one reviewed five stars, one wishlist row. -/
def exStore : Store :=
  { books := [exBookAlpha, exBookBeta], reviews := [exReviewFive], users := [exUserAlice]
    wishlist := [{ user_id := 1, book_id := 1 }], nextReviewId := 2, nextUserId := 2 }

/-- The empty store. -/
def emptyStore : Store :=
  { books := [], reviews := [], users := [], wishlist := [], nextReviewId := 1, nextUserId := 1 }

/-! ## Small helper lemmas -/

theorem all_filter_self (p : α → Bool) (l : List α) : (l.filter p).all p = true := by
  rw [List.all_eq_true]
  intro a ha
  exact (List.mem_filter.mp ha).2

/-! ## C5 — pagination bounds of the listing endpoint -/

/-- C5 counterexample: the claim says the effective limit is capped
server-side (e.g. at 100) and the effective page is a positive integer.
On the code, `limit=1000` yields an effective limit of 1000 with no cap,
and `page=-5` yields an effective page of -5; the `validatePagination`
middleware that would enforce the 1..100 bounds is not attached to any
route. -/
theorem getBooks_limit_uncapped_cex :
    getBooksEffLimit ⟨none, some 1000, "", "", "", ""⟩ = 1000 ∧
    ¬ getBooksEffLimit ⟨none, some 1000, "", "", "", ""⟩ ≤ 100 ∧
    getBooksEffPage ⟨some (-5), none, "", "", "", ""⟩ = -5 ∧
    ¬ 0 < getBooksEffPage ⟨some (-5), none, "", "", "", ""⟩ := by decide

/-- C5 (amended): for every book-listing request the row offset equals
(page-1)×limit; page and limit default to 1 and 10 when the parameter
is absent, non-numeric or zero; every other parsed value — negative
values included — is used as-is, with no server-side upper cap on
limit. -/
theorem getBooks_pagination_defaults (q : BooksQuery) :
    getBooksOffset q = (getBooksEffPage q - 1) * getBooksEffLimit q ∧
    ((q.page = none ∨ q.page = some 0) → getBooksEffPage q = 1) ∧
    ((q.limit = none ∨ q.limit = some 0) → getBooksEffLimit q = 10) ∧
    (∀ v : Int, q.page = some v → v ≠ 0 → getBooksEffPage q = v) ∧
    (∀ v : Int, q.limit = some v → v ≠ 0 → getBooksEffLimit q = v) := by
  refine ⟨rfl, ?_, ?_, ?_, ?_⟩
  · rintro (h | h) <;> simp [getBooksEffPage, jsIntOr, h]
  · rintro (h | h) <;> simp [getBooksEffLimit, jsIntOr, h]
  · intro v hv hne
    simp [getBooksEffPage, jsIntOr, hv, hne]
  · intro v hv hne
    simp [getBooksEffLimit, jsIntOr, hv, hne]

/-- C5 witness: the theorem applied at a request with no page parameter
and limit 7. -/
theorem getBooks_pagination_defaults_witness :
    getBooksEffPage ⟨none, some 7, "", "", "", ""⟩ = 1 ∧
    getBooksEffLimit ⟨none, some 7, "", "", "", ""⟩ = 7 := by
  refine ⟨?_, ?_⟩
  · exact (getBooks_pagination_defaults _).2.1 (Or.inl rfl)
  · exact (getBooks_pagination_defaults _).2.2.2.2 7 rfl (by decide)

/-! ## C6 — sort-key allow-list and order fallback -/

/-- C6 counterexample: the claim says an unknown sort key falls back to
sorting by creation time *descending*.  On the code, the order is
computed independently of the key: requesting `sortBy=bogus` together
with `sortOrder=asc` yields creation time in *ascending* order. -/
theorem getBooks_sort_fallback_cex :
    getBooksValidSortBy ⟨none, none, "", "", "bogus", "asc"⟩ = "created_at" ∧
    getBooksValidSortOrder ⟨none, none, "", "", "bogus", "asc"⟩ = "ASC" ∧
    ("ASC" : String) ≠ "DESC" := by decide

/-- C6 (amended): the effective sort key is the requested key when it is
in the allow-list and creation time otherwise; independently, the
effective order is the upper-cased requested order when that is ASC or
DESC, and DESC otherwise (so an unknown key requested together with an
ascending order sorts by creation time ascending). -/
theorem getBooks_sort_allowlist (q : BooksQuery) :
    (q.sortBy ∈ validSortFields → getBooksValidSortBy q = q.sortBy) ∧
    (q.sortBy ∉ validSortFields → getBooksValidSortBy q = "created_at") ∧
    (upStr q.sortOrder = "ASC" ∨ upStr q.sortOrder = "DESC" →
      getBooksValidSortOrder q = upStr q.sortOrder) ∧
    (¬ (upStr q.sortOrder = "ASC" ∨ upStr q.sortOrder = "DESC") →
      getBooksValidSortOrder q = "DESC") := by
  obtain ⟨p, l, se, g, sb, so⟩ := q
  dsimp only
  refine ⟨?_, ?_, ?_, ?_⟩
  · intro h
    simp only [validSortFields, List.mem_cons, List.not_mem_nil, or_false] at h
    rcases h with h | h | h | h | h | h <;> subst h <;> rfl
  · intro h
    show (let s0 := if sb == "" then "created_at" else sb;
      if validSortFields.contains s0 then s0 else "created_at") = "created_at"
    by_cases he : sb = ""
    · subst he; rfl
    · have hb : (sb == "") = false := by simpa using he
      have hc : validSortFields.contains sb = false := by
        rcases hcc : validSortFields.contains sb with _ | _
        · rfl
        · exact absurd (List.elem_iff.mp hcc) h
      simp only [hb, if_false, Bool.false_eq_true, hc]
  · intro h
    show (let o := if so == "" then "DESC" else so;
      if ["ASC", "DESC"].contains (upStr o) then upStr o else "DESC") = upStr so
    by_cases he : so = ""
    · subst he
      rcases h with h | h <;> exact absurd h (by decide)
    · have hb : (so == "") = false := by simpa using he
      simp only [hb, if_false, Bool.false_eq_true]
      rcases h with h | h <;> rw [h] <;> rfl
  · intro h
    show (let o := if so == "" then "DESC" else so;
      if ["ASC", "DESC"].contains (upStr o) then upStr o else "DESC") = "DESC"
    by_cases he : so = ""
    · subst he; rfl
    · have hb : (so == "") = false := by simpa using he
      simp only [hb, if_false, Bool.false_eq_true]
      rcases hcc : (["ASC", "DESC"] : List String).contains (upStr so) with _ | _
      · simp
      · have := List.elem_iff.mp hcc
        simp only [List.mem_cons, List.not_mem_nil, or_false] at this
        exact absurd this h

/-- C6 witness: the theorem applied at a request for `title` ascending
(lower-case `asc` honored) and at one for an unknown key. -/
theorem getBooks_sort_allowlist_witness :
    getBooksValidSortBy ⟨none, none, "", "", "title", "asc"⟩ = "title" ∧
    getBooksValidSortOrder ⟨none, none, "", "", "title", "asc"⟩ = "ASC" := by
  refine ⟨?_, ?_⟩
  · exact (getBooks_sort_allowlist _).1 (by decide)
  · have h := (getBooks_sort_allowlist ⟨none, none, "", "", "title", "asc"⟩).2.2.1
      (Or.inl (by decide))
    simpa using h

/-! ## C8 — the admin self-protection invariant -/

/-- C8: a caller targeting their own account always receives an error
from the role-change and the delete-user operations, and the store is
left unchanged in every such case. -/
theorem admin_self_protection (s : Store) (callerId : Nat) (role : String)
    (failAt : Option Nat) :
    (updateUserRole s callerId callerId role).1 = s ∧
    (updateUserRole s callerId callerId role).2 ≠ .ok ∧
    (deleteUser s callerId callerId failAt).1 = s ∧
    (deleteUser s callerId callerId failAt).2 ≠ .ok := by
  have hu : ∃ m, updateUserRole s callerId callerId role = (s, .badRequest m) := by
    unfold updateUserRole
    by_cases hr : (!(role == "user" || role == "admin")) = true
    · exact ⟨"Invalid role", by simp [hr]⟩
    · by_cases hc : callerId = 0
      · exact ⟨"Invalid user ID", by simp [hr, hc]⟩
      · exact ⟨"Cannot change your own role", by simp [hr, hc]⟩
  have hd : ∃ m, deleteUser s callerId callerId failAt = (s, .badRequest m) := by
    unfold deleteUser
    by_cases hc : callerId = 0
    · exact ⟨"Invalid user ID", by simp [hc]⟩
    · exact ⟨"Cannot delete your own account", by simp [hc]⟩
  obtain ⟨m1, h1⟩ := hu
  obtain ⟨m2, h2⟩ := hd
  rw [h1, h2]
  exact ⟨rfl, by simp, rfl, by simp⟩

/-- C8 witness: the theorem applied at the concrete example store with
the admin user 1 targeting their own account. -/
theorem admin_self_protection_witness :
    (updateUserRole exStore 1 1 "user").1 = exStore ∧
    (deleteUser exStore 1 1 none).1 = exStore :=
  ⟨(admin_self_protection exStore 1 "user" none).1,
   (admin_self_protection exStore 1 "user" none).2.2.1⟩

/-! ## C3 — registration honors the caller-supplied role -/

/-- C3: the register operation honors a caller-supplied role field — a
registration whose body carries role admin creates an admin account,
and any other supplied role value (or none) creates a user account;
registration is not restricted to non-admin accounts. -/
theorem register_honors_role :
    (∃ u : User,
      (register emptyStore "alice" "alice@example.com" "Secret1" (some "admin") 5).2 =
        .created u ∧ u.role = "admin") ∧
    (∀ (s : Store) (un em pw : String) (r : Option String) (now : Nat) (u : User),
      r ≠ some "admin" → (register s un em pw r now).2 = .created u →
      u.role = "user") := by
  constructor
  · exact ⟨⟨1, "alice", "alice@example.com", "admin", 5⟩, by decide, rfl⟩
  · intro s un em pw r now u hr hc
    unfold register at hc
    by_cases h1 : (un == "" || em == "" || pw == "") = true
    · rw [if_pos h1] at hc
      exact absurd hc (by simp)
    · rw [if_neg h1] at hc
      by_cases h2 : (s.users.any fun v => v.username == un || v.email == em) = true
      · rw [if_pos h2] at hc
        exact absurd hc (by simp)
      · rw [if_neg h2] at hc
        have hc2 : RegisterOutcome.created
            ⟨s.nextUserId, un, em, registerRole r, now⟩ = .created u := hc
        injection hc2 with h3
        rw [← h3]
        have hb : (r == some "admin") = false := by
          rcases hbb : r == some "admin" with _ | _
          · rfl
          · exact absurd (eq_of_beq hbb) hr
        simp [registerRole, hb]

/-- C3 witness: the universal part of the theorem applied at a concrete
request carrying role user. -/
theorem register_honors_role_witness :
    ((register emptyStore "bob" "bob@example.com" "Secret1" (some "user") 6).2 =
      RegisterOutcome.created ⟨1, "bob", "bob@example.com", "user", 6⟩) ∧
    ("user" : String) = "user" := by
  refine ⟨by decide, ?_⟩
  exact register_honors_role.2 emptyStore "bob" "bob@example.com" "Secret1"
    (some "user") 6 ⟨1, "bob", "bob@example.com", "user", 6⟩ (by decide) (by decide)

/-! ## C9 — zero reviews yield zero aggregates, never null -/

theorem mem_of_page {l : List α} {x : α} {le : α → α → Bool} {off lim : Nat}
    (h : x ∈ ((sortOrd le l).drop off).take lim) : x ∈ l :=
  (mem_sortOrd le l x).mp (List.drop_subset off (sortOrd le l) (List.take_subset _ _ h))

theorem enrichBook_zero {s : Store} {b : Book} (hz : bookReviews s b.id = []) :
    (enrichBook s b).average_rating = 0 ∧ (enrichBook s b).review_count = 0 := by
  simp [enrichBook, bookAverageRating, bookReviewCount, hz, avgOf]

/-- C9: every book row returned by the listing, detail, featured,
related-books and search operations whose book has zero reviews carries
`average_rating = 0` and `review_count = 0` — the aggregates are never
null or undefined because `COALESCE(AVG(..), 0)` and `COUNT(..)` always
produce a number. -/
theorem zero_reviews_zero_aggregates (s : Store) (q : BooksQuery) (sq : SearchQuery)
    (bid : Nat) (lim : Option Int) (e : EnrichedBook)
    (hz : bookReviews s e.book.id = []) :
    (e ∈ getBooksRows s q → e.average_rating = 0 ∧ e.review_count = 0) ∧
    (getBookById s bid = some e → e.average_rating = 0 ∧ e.review_count = 0) ∧
    (e ∈ getFeaturedBooks s lim → e.average_rating = 0 ∧ e.review_count = 0) ∧
    (∀ rows, getRelatedBooks s bid lim = some rows → e ∈ rows →
      e.average_rating = 0 ∧ e.review_count = 0) ∧
    (e ∈ searchRows s sq → e.average_rating = 0 ∧ e.review_count = 0) := by
  have core : ∀ b : Book, e = enrichBook s b → e.average_rating = 0 ∧ e.review_count = 0 := by
    intro b he
    subst he
    exact enrichBook_zero hz
  refine ⟨?_, ?_, ?_, ?_, ?_⟩
  · intro h
    unfold getBooksRows at h
    obtain ⟨b, _, hb⟩ := List.mem_map.mp (mem_of_page h)
    exact core b hb.symm
  · intro h
    unfold getBookById at h
    by_cases h0 : bid = 0
    · rw [if_pos h0] at h
      exact absurd h (by simp)
    · rw [if_neg h0] at h
      obtain ⟨b, _, hb⟩ := Option.map_eq_some'.mp h
      exact core b hb.symm
  · intro h
    unfold getFeaturedBooks at h
    have h2 := (mem_sortOrd _ _ _).mp (List.take_subset _ _ h)
    obtain ⟨b, _, hb⟩ := List.mem_map.mp (List.mem_filter.mp h2).1
    exact core b hb.symm
  · intro rows hrows he
    unfold getRelatedBooks at hrows
    by_cases h0 : bid = 0
    · rw [if_pos h0] at hrows
      exact absurd hrows (by simp)
    · rw [if_neg h0] at hrows
      rcases hf : s.books.find? (fun b => b.id == bid) with _ | b
      · rw [hf] at hrows
        exact absurd hrows (by simp)
      · rw [hf] at hrows
        dsimp only at hrows
        rcases hg : b.genre with _ | g
        · rw [hg] at hrows
          dsimp only at hrows
          injection hrows with h4
          rw [← h4] at he
          exact absurd he (by simp)
        · rw [hg] at hrows
          dsimp only at hrows
          by_cases hge : (g == "") = true
          · rw [if_pos hge] at hrows
            injection hrows with h4
            rw [← h4] at he
            exact absurd he (by simp)
          · rw [if_neg hge] at hrows
            injection hrows with h4
            rw [← h4] at he
            have h2 := (mem_sortOrd _ _ _).mp (List.take_subset _ _ he)
            obtain ⟨b2, _, hb⟩ := List.mem_map.mp h2
            exact core b2 hb.symm
  · intro h
    unfold searchRows at h
    obtain ⟨b, _, hb⟩ := List.mem_map.mp (List.mem_filter.mp (mem_of_page h)).1
    exact core b hb.symm

/-- C9 witness: the theorem applied to the detail lookup of the
review-less book 2 of the example store. -/
theorem zero_reviews_zero_aggregates_witness :
    (enrichBook exStore exBookBeta).average_rating = 0 ∧
    (enrichBook exStore exBookBeta).review_count = 0 :=
  (zero_reviews_zero_aggregates exStore ⟨none, none, "", "", "", ""⟩
    ⟨"", "", "", none, none, "", none, none⟩ 2 none (enrichBook exStore exBookBeta)
    (by decide)).2.1 (by decide)

/-! ## C7 — the rating check is a numeric range check, not an integer
check -/

/-- C7 counterexample: the claim says a non-integer rating is rejected
with a validation error before any row is written.  On the code, the
only guard is `rating < 1 || rating > 5`, so the non-integer rating 9/2
passes it and a row is inserted (the validation middleware with the
`isInt` rule is not attached to the review routes). -/
theorem review_rating_noninteger_accepted_cex :
    (createReview exStore 1 2 (mkRat 9 2) none 50).2 =
      ReviewOutcome.created ⟨2, 1, 2, mkRat 9 2, none, 50⟩ "alice" ∧
    (createReview exStore 1 2 (mkRat 9 2) none 50).1.reviews =
      [exReviewFive, ⟨2, 1, 2, mkRat 9 2, none, 50⟩] ∧
    ¬ (mkRat 9 2).den = 1 := by decide

/-- C7 (amended): for every create-review and update-review request,
the rating is rejected — with a 400-class error and no row written —
exactly when it is missing/zero or lies outside [1,5]; any numeric
rating in [1,5] passes the range check whether or not it is an
integer. -/
theorem review_rating_range_only (s : Store) (c bid rid : Nat) (rating : ℚ)
    (cm : Option String) (now : Nat) :
    (rating < 1 ∨ 5 < rating →
      (∃ m, createReview s c bid rating cm now = (s, .badRequest m)) ∧
      (∃ m, updateReview s c rid rating cm = (s, .badRequest m))) ∧
    (1 ≤ rating → rating ≤ 5 →
      (createReview s c bid rating cm now).2 ≠
        .badRequest "Rating must be between 1 and 5" ∧
      (updateReview s c rid rating cm).2 ≠
        .badRequest "Rating must be between 1 and 5") := by
  constructor
  · intro h
    have hrange : (decide (rating < 1) || decide (5 < rating)) = true := by
      rcases h with h | h <;> simp [h]
    constructor
    · unfold createReview
      by_cases h0 : (decide (bid = 0) || rating == 0) = true
      · exact ⟨"Book ID and rating are required", by rw [if_pos h0]⟩
      · exact ⟨"Rating must be between 1 and 5", by rw [if_neg h0, if_pos hrange]⟩
    · unfold updateReview
      by_cases h0 : (rating == 0) = true
      · exact ⟨"Rating is required", by rw [if_pos h0]⟩
      · exact ⟨"Rating must be between 1 and 5", by rw [if_neg h0, if_pos hrange]⟩
  · intro h1 h5
    have hrange : (decide (rating < 1) || decide (5 < rating)) = false := by
      simp [not_lt.mpr h1, not_lt.mpr h5]
    constructor
    · unfold createReview
      split
      · exact fun hh => by simp at hh
      · split
        · next h2 => exact absurd h2 (by simp [hrange])
        · split
          · exact fun hh => ReviewOutcome.noConfusion hh
          · split
            · exact fun hh => by simp at hh
            · split
              · exact fun hh => ReviewOutcome.noConfusion hh
              · exact fun hh => ReviewOutcome.noConfusion hh
    · unfold updateReview
      split
      · exact fun hh => by simp at hh
      · split
        · next h2 => exact absurd h2 (by simp [hrange])
        · split
          · exact fun hh => ReviewOutcome.noConfusion hh
          · split
            · exact fun hh => ReviewOutcome.noConfusion hh
            · split
              · exact fun hh => ReviewOutcome.noConfusion hh
              · exact fun hh => ReviewOutcome.noConfusion hh

/-- C7 witness: the amended theorem applied at the out-of-range rating 6
and at the accepted concrete rating 3. -/
theorem review_rating_range_only_witness :
    (∃ m, createReview exStore 1 2 6 none 70 = (exStore, .badRequest m)) ∧
    (createReview exStore 1 2 3 none 70).2 ≠
      ReviewOutcome.badRequest "Rating must be between 1 and 5" := by
  constructor
  · exact ((review_rating_range_only exStore 1 2 1 6 none 70).1
      (Or.inr (by norm_num))).1
  · exact ((review_rating_range_only exStore 1 2 1 3 none 70).2
      (by norm_num) (by norm_num)).1

/-! ## C4 — the create-review contract -/

/-- C4: for every create-review request by an authenticated caller with
a supplied target book id and a rating in [1,5]: a book id matching no
book yields a not-found error with no row written; an existing review by
the caller for that book yields the 400-class conflict error with no row
written; otherwise exactly one review row is inserted and returned
joined with the reviewer username. -/
theorem createReview_contract (s : Store) (c bid : Nat) (rating : ℚ)
    (cm : Option String) (now : Nat)
    (hbid : bid ≠ 0) (h1 : 1 ≤ rating) (h5 : rating ≤ 5) :
    ((s.books.find? (fun b => b.id == bid)).isNone →
      createReview s c bid rating cm now = (s, .notFound)) ∧
    (∀ b, s.books.find? (fun b => b.id == bid) = some b →
      (s.reviews.any fun r => r.user_id == c && r.book_id == bid) = true →
      createReview s c bid rating cm now =
        (s, .badRequest "You have already reviewed this book")) ∧
    (∀ b u, s.books.find? (fun b => b.id == bid) = some b →
      (s.reviews.any fun r => r.user_id == c && r.book_id == bid) = false →
      s.users.find? (fun u => u.id == c) = some u →
      createReview s c bid rating cm now =
        ({ s with
            reviews := s.reviews ++ [⟨s.nextReviewId, c, bid, rating, cm, now⟩]
            nextReviewId := s.nextReviewId + 1 },
          .created ⟨s.nextReviewId, c, bid, rating, cm, now⟩ u.username)) := by
  have hr0 : (rating == 0) = false := by
    have : rating ≠ 0 := by
      intro hh
      rw [hh] at h1
      exact absurd h1 (by norm_num)
    simpa using this
  have hg1 : (decide (bid = 0) || rating == 0) = false := by
    simp [hbid, hr0]
  have hg2 : (decide (rating < 1) || decide (5 < rating)) = false := by
    simp [not_lt.mpr h1, not_lt.mpr h5]
  refine ⟨?_, ?_, ?_⟩
  · intro hnone
    unfold createReview
    rw [if_neg (by simp [hg1]), if_neg (by simp [hg2]), if_pos hnone]
  · intro b hfind hdup
    unfold createReview
    rw [if_neg (by simp [hg1]), if_neg (by simp [hg2]),
      if_neg (by simp [hfind]), if_pos hdup]
  · intro b u hfind hdup hu
    unfold createReview
    rw [if_neg (by simp [hg1]), if_neg (by simp [hg2]),
      if_neg (by simp [hfind]), if_neg (by simp [hdup]), hu]

/-- C4 witness: the theorem applied at a request for the nonexistent
book 3 and at a successful creation for book 2 of the example store. -/
theorem createReview_contract_witness :
    createReview exStore 1 3 4 none 60 = (exStore, .notFound) ∧
    (createReview exStore 1 2 4 none 60).2 =
      ReviewOutcome.created ⟨2, 1, 2, 4, none, 60⟩ "alice" := by
  constructor
  · exact (createReview_contract exStore 1 3 4 none 60 (by decide) (by norm_num)
      (by norm_num)).1 (by decide)
  · have h := (createReview_contract exStore 1 2 4 none 60 (by decide) (by norm_num)
      (by norm_num)).2.2 exBookBeta exUserAlice (by decide) (by decide) (by decide)
    rw [h]
    decide

/-! ## C1 — atomicity of the delete cascades -/

theorem deleteBook_cases (s : Store) (bid : Nat) (fb : Option Nat) :
    deleteBook s bid fb = (s, .badRequest "Invalid book ID") ∨
    deleteBook s bid fb = (s, .notFound) ∨
    deleteBook s bid fb = (s, .serverError) ∨
    deleteBook s bid fb = (bookCascade s bid, .ok) := by
  unfold deleteBook
  by_cases h0 : bid = 0
  · rw [if_pos h0]
    exact Or.inl rfl
  · rw [if_neg h0]
    by_cases hn : (s.books.find? (fun b => b.id == bid)).isNone = true
    · rw [if_pos hn]
      exact Or.inr (Or.inl rfl)
    · rw [if_neg hn]
      unfold runTxn
      rcases fb with _ | k
      · exact Or.inr (Or.inr (Or.inr rfl))
      · dsimp only
        by_cases hk : k < ([delReviewsByBook bid, delWishlistByBook bid,
            delBookRow bid] : List (Store → Store)).length
        · rw [if_pos hk]
          exact Or.inr (Or.inr (Or.inl rfl))
        · rw [if_neg hk]
          exact Or.inr (Or.inr (Or.inr rfl))

theorem deleteUser_cases (s : Store) (callerId uid : Nat) (fu : Option Nat) :
    deleteUser s callerId uid fu = (s, .badRequest "Invalid user ID") ∨
    deleteUser s callerId uid fu = (s, .badRequest "Cannot delete your own account") ∨
    deleteUser s callerId uid fu = (s, .notFound) ∨
    deleteUser s callerId uid fu = (s, .serverError) ∨
    deleteUser s callerId uid fu = (userCascade s uid, .ok) := by
  unfold deleteUser
  by_cases h0 : uid = 0
  · rw [if_pos h0]
    exact Or.inl rfl
  · rw [if_neg h0]
    by_cases hself : uid = callerId
    · rw [if_pos hself]
      exact Or.inr (Or.inl rfl)
    · rw [if_neg hself]
      by_cases hn : (s.users.find? (fun u => u.id == uid)).isNone = true
      · rw [if_pos hn]
        exact Or.inr (Or.inr (Or.inl rfl))
      · rw [if_neg hn]
        unfold runTxn
        rcases fu with _ | k
        · exact Or.inr (Or.inr (Or.inr (Or.inr rfl)))
        · dsimp only
          by_cases hk : k < ([delReviewsByUser uid, delWishlistByUser uid,
              delUserRow uid] : List (Store → Store)).length
          · rw [if_pos hk]
            exact Or.inr (Or.inr (Or.inr (Or.inl rfl)))
          · rw [if_neg hk]
            exact Or.inr (Or.inr (Or.inr (Or.inr rfl)))

/-- C1: both delete cascades are atomic under the modelled transaction
semantics — whatever step (if any) fails, the committed store is either
exactly the prior store or the fully-cascaded store; the cascade
completes exactly when the handler answers success, and then no review
or wishlist row referencing the deleted entity remains and the entity
row itself is gone; on any non-success answer the store is unchanged. -/
theorem delete_cascades_atomic (s : Store) (bid callerId uid : Nat)
    (fb fu : Option Nat) :
    (((deleteBook s bid fb).1 = s ∨ (deleteBook s bid fb).1 = bookCascade s bid) ∧
     ((deleteBook s bid fb).2 = .ok →
       (deleteBook s bid fb).1 = bookCascade s bid ∧
       (deleteBook s bid fb).1.reviews.all (fun r => r.book_id != bid) = true ∧
       (deleteBook s bid fb).1.wishlist.all (fun w => w.book_id != bid) = true ∧
       (deleteBook s bid fb).1.books.all (fun b => b.id != bid) = true) ∧
     ((deleteBook s bid fb).2 ≠ .ok → (deleteBook s bid fb).1 = s)) ∧
    (((deleteUser s callerId uid fu).1 = s ∨
        (deleteUser s callerId uid fu).1 = userCascade s uid) ∧
     ((deleteUser s callerId uid fu).2 = .ok →
       (deleteUser s callerId uid fu).1 = userCascade s uid ∧
       (deleteUser s callerId uid fu).1.reviews.all (fun r => r.user_id != uid) = true ∧
       (deleteUser s callerId uid fu).1.wishlist.all (fun w => w.user_id != uid) = true ∧
       (deleteUser s callerId uid fu).1.users.all (fun u => u.id != uid) = true) ∧
     ((deleteUser s callerId uid fu).2 ≠ .ok → (deleteUser s callerId uid fu).1 = s)) := by
  constructor
  · rcases deleteBook_cases s bid fb with h | h | h | h <;> rw [h]
    · exact ⟨Or.inl rfl, fun hc => MutationOutcome.noConfusion hc, fun _ => rfl⟩
    · exact ⟨Or.inl rfl, fun hc => MutationOutcome.noConfusion hc, fun _ => rfl⟩
    · exact ⟨Or.inl rfl, fun hc => MutationOutcome.noConfusion hc, fun _ => rfl⟩
    · refine ⟨Or.inr rfl, fun _ => ⟨rfl, ?_, ?_, ?_⟩, fun hc => absurd rfl hc⟩
      · exact all_filter_self _ _
      · exact all_filter_self _ _
      · exact all_filter_self _ _
  · rcases deleteUser_cases s callerId uid fu with h | h | h | h | h <;> rw [h]
    · exact ⟨Or.inl rfl, fun hc => MutationOutcome.noConfusion hc, fun _ => rfl⟩
    · exact ⟨Or.inl rfl, fun hc => MutationOutcome.noConfusion hc, fun _ => rfl⟩
    · exact ⟨Or.inl rfl, fun hc => MutationOutcome.noConfusion hc, fun _ => rfl⟩
    · exact ⟨Or.inl rfl, fun hc => MutationOutcome.noConfusion hc, fun _ => rfl⟩
    · refine ⟨Or.inr rfl, fun _ => ⟨rfl, ?_, ?_, ?_⟩, fun hc => absurd rfl hc⟩
      · exact all_filter_self _ _
      · exact all_filter_self _ _
      · exact all_filter_self _ _

/-- C1 witness: deleting book 1 of the example store succeeds and leaves
no review or wishlist row referencing it; a failure injected at the
wishlist step leaves the store exactly unchanged. -/
theorem delete_cascades_atomic_witness :
    (deleteBook exStore 1 none).2 = .ok ∧
    (deleteBook exStore 1 none).1.reviews.all (fun r => r.book_id != 1) = true ∧
    (deleteBook exStore 1 (some 1)).1 = exStore := by
  refine ⟨by decide, ?_, ?_⟩
  · exact ((delete_cascades_atomic exStore 1 1 2 none none).1.2.1 (by decide)).2.1
  · exact (delete_cascades_atomic exStore 1 1 2 (some 1) none).1.2.2 (by decide)

/-! ## C10 — percentage computations never divide by zero -/

theorem ratingGroups_nonempty {rs : List Review} {g : ℚ × Nat}
    (h : g ∈ ratingGroups rs) : rs ≠ [] := by
  intro hnil
  subst hnil
  simp [ratingGroups, ratingValues, sortOrd] at h

/-- C10: in both summary endpoints no percentage-of-total is ever an
undefined division — every reported percentage entry is a defined
number (the global distribution is empty when there are no reviews, so
the unguarded division at line 1089 only runs with a positive total) —
and in the per-book summary a zero total makes every reported
percentage exactly 0 via the explicit guard at line 1167. -/
theorem percentages_no_div_by_zero (s : Store) (now : Nat) (bid : Nat) :
    (∀ item ∈ (getReviewStats s now).ratingDistribution, item.2.2.isSome = true) ∧
    (s.reviews = [] → (getReviewStats s now).ratingDistribution = []) ∧
    (∀ bs, getBookReviewSummary s bid = some bs →
      (∀ item ∈ bs.ratingDistribution, item.2.2.isSome = true) ∧
      (bs.totalReviews = 0 → ∀ item ∈ bs.ratingDistribution, item.2.2 = some 0)) := by
  refine ⟨?_, ?_, ?_⟩
  · intro item h
    unfold getReviewStats at h
    dsimp only at h
    obtain ⟨g, hg, hi⟩ := List.mem_map.mp h
    have hne : s.reviews ≠ [] := ratingGroups_nonempty hg
    have hlen : s.reviews.length ≠ 0 := by
      simpa [List.length_eq_zero] using hne
    rw [← hi]
    dsimp only
    rw [distPct, if_neg hlen]
    rfl
  · intro hr
    simp [getReviewStats, ratingGroups, ratingValues, hr, sortOrd]
  · intro bs hbs
    unfold getBookReviewSummary at hbs
    by_cases h0 : bid = 0
    · rw [if_pos h0] at hbs
      exact absurd hbs (by simp)
    · rw [if_neg h0] at hbs
      rcases hf : s.books.find? (fun b => b.id == bid) with _ | b
      · rw [hf] at hbs
        exact absurd hbs (by simp)
      · rw [hf] at hbs
        dsimp only at hbs
        injection hbs with hb
        constructor
        · intro item h
          rw [← hb] at h
          dsimp only at h
          obtain ⟨g, hg, hi⟩ := List.mem_map.mp h
          rw [← hi]
          dsimp only
          by_cases ht : 0 < (bookReviews s bid).length
          · rw [if_pos ht, distPct, if_neg (Nat.pos_iff_ne_zero.mp ht)]
            rfl
          · rw [if_neg ht]
            rfl
        · intro htot item h
          rw [← hb] at htot h
          dsimp only at htot h
          obtain ⟨g, hg, hi⟩ := List.mem_map.mp h
          rw [← hi]
          dsimp only
          rw [if_neg (by rw [htot]; exact lt_irrefl 0)]

/-- C10 witness: the theorem applied to the one-review example store,
whose single distribution entry carries the defined percentage 100. -/
theorem percentages_no_div_by_zero_witness :
    (((5 : ℚ), 1, distPct 1 1) :
      ℚ × Nat × Option ℚ).2.2.isSome = true ∧ distPct 1 1 = some 100 := by
  refine ⟨?_, by decide⟩
  exact (percentages_no_div_by_zero exStore 0 1).1 ((5 : ℚ), 1, distPct 1 1) (by decide)

/-! ## C2 — the search total diverges from the filtered row count -/

/-- The failing search request: free text `a` with a minimum average
rating of 4, first page, limit 10. -/
def c2Query : SearchQuery :=
  ⟨"a", "", "", some 4, none, "relevance", some 1, some 10⟩

/-- C2 (failing input): on the example store both books match the free
text `a`, but only book 1 (average 5) passes `minRating=4`.  The page
lists exactly that one row — yet the separately built count query never
receives the HAVING rating filter, so the response reports `total = 2` while
the number of books satisfying all active filters is 1: concatenating
all pages yields 1 row, not `total` rows, refuting the pagination
invariant the claim states. -/
theorem searchBooks_total_ignores_rating_filter :
    searchHasParam c2Query = true ∧
    (searchRows exStore c2Query).length = 1 ∧
    searchTotal exStore c2Query = 2 ∧
    searchAllFiltersCount exStore c2Query = 1 ∧
    searchTotal exStore c2Query ≠ searchAllFiltersCount exStore c2Query ∧
    searchTotalPages exStore c2Query = 1 := by decide

end Latracal
